import Mathlib

/-!
Verification of the Numato relay board driver (`numato_relay_board.py`).

The development shallowly embeds the driver: Python values appearing as
`set_relay` arguments become the inductive `PyVal`; Python runtime errors
become `PyError`; the serial transport becomes a `Transport` record holding
the trace of written command strings and a stream of read results; every
method of `RelayBoard` becomes a Lean function threading the board state and
returning `Except PyError α × RelayBoard` (the final state also on error,
reflecting the I/O performed before the exception).

Machine integers are modelled as `Nat`/`Int` (Python integers are unbounded,
so no wrap-around is involved).  Strings are Lean `String`s; the device
replies are already decoded text (the source decodes bytes with
`str(response, ...)` with the utf-8 codec).  `Char.isAlphanum` models Python
`str.isalnum` on the ASCII range, which is the range every concrete input
below lives in.
-/

/-- Python runtime errors / failure conditions that the driver can surface.
`notConnected` is the error name used by the specification document; it is
included so that statements about it can be made, but no code path below
produces it. -/
inductive PyError where
  | attributeError : PyError        -- method call on the class-level placeholder device ''
  | portNotOpen : PyError           -- serial operation on a closed port
  | assertionError : String → PyError
  | valueError : PyError            -- int(...) applied to a non-numeric string
  | indexError : PyError            -- list index out of range when splitting a reply
  | notConnected : PyError
  deriving Repr, DecidableEq

/-- Python values, as far as `set_relay`/`set_gpio` arguments need:
ints, floats (payload as an exact rational), strings, lists, booleans and
a catch-all `vnone` for any other object. -/
inductive PyVal where
  | vint : Int → PyVal
  | vfloat : ℚ → PyVal
  | vstr : String → PyVal
  | vlist : List PyVal → PyVal
  | vbool : Bool → PyVal
  | vnone : PyVal
  deriving Repr

/-- Python `v != 0` for a list element `v` (in `set_relay`):
`True != 0` is `False` because `True == 1`; non-numeric objects are
never equal to `0`. -/
def pyNeZero : PyVal → Bool
  | .vint n => n ≠ 0
  | .vfloat q => q ≠ 0
  | .vbool b => b
  | .vstr _ => true
  | .vlist _ => true
  | .vnone => true

/-- Python truthiness (`if status:` in `set_gpio`). -/
def pyTruthy : PyVal → Bool
  | .vint n => n ≠ 0
  | .vfloat q => q ≠ 0
  | .vbool b => b
  | .vstr s => s ≠ ""
  | .vlist l => !l.isEmpty
  | .vnone => false

/-! ### Python string primitives used by the driver -/

/-- Python `s.strip(c)` for a single character: remove leading and trailing
occurrences of `c`. -/
def pyStrip (s : String) (c : Char) : String :=
  String.mk (((s.data.dropWhile (· = c)).reverse.dropWhile (· = c)).reverse)

/-- Python `s.zfill(w)`: left-pad with the character `0` to width `w`
(`s` is returned unchanged when already at least that wide).  The sign-aware
branch of the Python method is irrelevant here: no call site below can pass a
string starting with a sign character. -/
def pyZfill (s : String) (w : Nat) : String :=
  if s.length < w then String.mk (List.replicate (w - s.length) '0') ++ s
  else s

/-- Python `s[:w]`. -/
def pyTake (s : String) (w : Nat) : String :=
  String.mk (s.data.take w)

/-- Python `s[k:]`. -/
def pySliceFrom (s : String) (k : Nat) : String :=
  String.mk (s.data.drop k)

/-- Splitting on a one-character separator, carrying the reversed current
field: every occurrence splits, empty fields kept. -/
def pySplitAux : List Char → Char → List Char → List String
  | [], _, acc => [String.mk acc.reverse]
  | c :: cs, sep, acc =>
    if c = sep then String.mk acc.reverse :: pySplitAux cs sep []
    else pySplitAux cs sep (c :: acc)

/-- Python `s.split(sep)` for the one-character separators the driver uses
(`'\r'` and `'\n'`). -/
def pySplit (s : String) (sep : Char) : List String :=
  pySplitAux s.data sep []

/-- The characters Python `int(...)` strips around a numeral (ASCII
whitespace; the exotic Unicode spaces never occur in device replies). -/
def isPyWhitespace (c : Char) : Bool :=
  c = ' ' ∨ c = '\t' ∨ c = '\n' ∨ c = '\r' ∨ c = '\x0b' ∨ c = '\x0c'

/-- Strip leading and trailing whitespace. -/
def pyStripWs (l : List Char) : List Char :=
  ((l.dropWhile isPyWhitespace).reverse.dropWhile isPyWhitespace).reverse

/-- The numeral characters of Python `hex`: `0`-`9` then lowercase `a`-`f`. -/
def hexDigitChar (d : Nat) : Char :=
  if d < 10 then Char.ofNat (48 + d) else Char.ofNat (87 + d)

/-- Hex numeral construction, structurally recursive on a fuel argument so
that concrete instances reduce in the kernel; `fuel = n + 1` always
suffices because the value shrinks by a factor 16 each step. -/
def natToHexAux : Nat → Nat → List Char
  | 0, _ => []
  | fuel + 1, n =>
    if n < 16 then [hexDigitChar n]
    else natToHexAux fuel (n / 16) ++ [hexDigitChar (n % 16)]

/-- Hex numeral of a natural number, most significant digit first, no
prefix, minimal width (`natToHex 0 = "0"` like Python `hex(0)[2:]`). -/
def natToHex (n : Nat) : List Char :=
  natToHexAux (n + 1) n

/-- Python `hex(i)` on an arbitrary integer: `0x` prefix, lowercase digits,
a leading `-` for negative arguments. -/
def pyHex (i : Int) : String :=
  (if i < 0 then "-" else "") ++ "0x" ++ String.mk (natToHex i.natAbs)

/-- Decimal value of a digit string (`'0'`-`'9'` characters). -/
def digitsVal (l : List Char) : Nat :=
  l.foldl (fun acc c => 10 * acc + (c.toNat - 48)) 0

/-- Python `int(s)`: strip surrounding whitespace, optional sign, then a
nonempty run of decimal digits; anything else raises `ValueError`.
(Underscore digit grouping, which no device reply contains, is not
modelled.) -/
def pyInt (s : String) : Option Int :=
  let t := pyStripWs s.data
  let signed : Int × List Char :=
    match t with
    | '-' :: cs => (-1, cs)
    | '+' :: cs => (1, cs)
    | cs => (1, cs)
  if signed.2 ≠ [] ∧ signed.2.all Char.isDigit then
    some (signed.1 * (digitsVal signed.2 : Int))
  else none

/-- Hex value of a hex-digit string (both cases accepted, like
`int(s, 16)`). -/
def hexDigitsVal (l : List Char) : Nat :=
  l.foldl (fun acc c =>
    16 * acc + (if c.toNat ≥ 97 then c.toNat - 87
                else if c.toNat ≥ 65 then c.toNat - 55
                else c.toNat - 48)) 0

/-- Python `int(s, 16)`: strip whitespace, optional sign, optional `0x`
prefix, then a nonempty run of hex digits. -/
def pyIntHex (s : String) : Option Int :=
  let t := pyStripWs s.data
  let signed : Int × List Char :=
    match t with
    | '-' :: cs => (-1, cs)
    | '+' :: cs => (1, cs)
    | cs => (1, cs)
  let body : List Char :=
    match signed.2 with
    | '0' :: 'x' :: cs => cs
    | '0' :: 'X' :: cs => cs
    | cs => cs
  if body ≠ [] ∧ body.all (fun c => c.isDigit ∨ (97 ≤ c.toNat ∧ c.toNat ≤ 102)
      ∨ (65 ≤ c.toNat ∧ c.toNat ≤ 70)) then
    some (signed.1 * (hexDigitsVal body : Nat))
  else none

/-! ### Serial transport model

The transport records the written command strings and serves reads from a
fixed stream `readSeq` of decoded reply strings (`readSeq k` is what the
`k`-th read returns; an empty string models a timed-out read).  Writing or
reading a closed port fails, as pyserial raises on a closed port. -/

structure Transport where
  readSeq : Nat → String
  readIdx : Nat
  writes : List String
  isOpen : Bool

def Transport.write (t : Transport) (s : String) : Except PyError Transport :=
  if t.isOpen then .ok { t with writes := t.writes ++ [s] }
  else .error .portNotOpen

/-- `read(n)`: the byte-count bound `n` (50 or 100 in the source) does not
constrain the model, where `readSeq` already fixes what each read yields. -/
def Transport.read (t : Transport) (_n : Nat) : Except PyError (String × Transport) :=
  if t.isOpen then .ok (t.readSeq t.readIdx, { t with readIdx := t.readIdx + 1 })
  else .error .portNotOpen

/-! ### The board -/

/-- `RelayBoard` state.  `device = none` models the class-level placeholder
`device = ''` left in place when the `serial.Serial` call of the constructor
failed (so any method call on it raises `AttributeError`). -/
structure RelayBoard where
  number_of_relays : Nat
  port_name : String
  device : Option Transport
  connected : Bool

/-- `close_port`: `self.device.close()`. -/
def close_port (b : RelayBoard) : Except PyError Unit × RelayBoard :=
  match b.device with
  | none => (.error .attributeError, b)
  | some t => (.ok (), { b with device := some { t with isOpen := false } })

/-- Reply decoding of `get_device_name`:
decode the reply, take `split` at `\r` index 1, strip `\n`. -/
def name_decode (response : String) : Except PyError String :=
  match (pySplit response '\r').get? 1 with
  | none => .error .indexError
  | some s => .ok (pyStrip s '\n')

/-- `get_device_name`: write `id get\r`, read 100, decode. -/
def get_device_name (b : RelayBoard) : Except PyError String × RelayBoard :=
  match b.device with
  | none => (.error .attributeError, b)
  | some t =>
    match t.write "id get\r" with
    | .error e => (.error e, b)
    | .ok t =>
      match t.read 100 with
      | .error e => (.error e, { b with device := some t })
      | .ok (response, t) =>
        (name_decode response, { b with device := some t })

/-- The name normalisation of `set_device_name`: keep characters with code
point in `[48, 121]`, keep alphanumeric characters, `zfill(8)`, `[:8]`. -/
def normalize_name (name : String) : String :=
  let name := String.mk (name.data.filter (fun x => 48 ≤ x.toNat ∧ x.toNat ≤ 121))
  let name := String.mk (name.data.filter (fun x => x.isAlphanum))
  let name := pyZfill name 8
  pyTake name 8

/-- The normalisation as the specification words it: alphanumeric filter
only, then the same `zfill(8)` and truncation (for comparison with
`normalize_name`). -/
def normalize_name_spec (name : String) : String :=
  let name := String.mk (name.data.filter (fun x => x.isAlphanum))
  let name := pyZfill name 8
  pyTake name 8

/-- `set_device_name`: normalise, write `id set {name}\r`, read 100. -/
def set_device_name (b : RelayBoard) (name : String) : Except PyError Unit × RelayBoard :=
  match b.device with
  | none => (.error .attributeError, b)
  | some t =>
    let name := normalize_name name
    match t.write ("id set " ++ name ++ "\r") with
    | .error e => (.error e, b)
    | .ok t =>
      match t.read 100 with
      | .error e => (.error e, { b with device := some t })
      | .ok (_, t) => (.ok (), { b with device := some t })

/-- The `while` loop of `clear_buffer`, with `fuel = retry_limit - (reads
already performed)`: read 50; empty → success; otherwise `retry_count`
exceeds `retry_limit` exactly when the fuel is exhausted → failure;
otherwise iterate. -/
def clearBufferGo : Nat → Transport → Except PyError (Bool × Transport)
  | fuel, t =>
    match t.read 50 with
    | .error e => .error e
    | .ok (response, t) =>
      if response.length = 0 then .ok (true, t)
      else
        match fuel with
        | 0 => .ok (false, t)
        | fuel + 1 => clearBufferGo fuel t

/-- `clear_buffer(retry_limit=10)`. -/
def clear_buffer (b : RelayBoard) (retry_limit : Nat := 10) :
    Except PyError Bool × RelayBoard :=
  match b.device with
  | none => (.error .attributeError, b)
  | some t =>
    match clearBufferGo retry_limit t with
    | .error e => (.error e, b)
    | .ok (blank_buffer, t) => (.ok blank_buffer, { b with device := some t })

/-- Reply decoding of `read_gpio`:
decode the reply, take `split` at `\n` index 2, strip `\r`, then `bool(int(...))` —
`int(...)` raises on a non-numeric token, `bool(...)` maps `0` to `False`
and every other integer to `True`. -/
def gpio_decode (response : String) : Except PyError Bool :=
  match (pySplit response '\n').get? 2 with
  | none => .error .indexError
  | some s =>
    match pyInt (pyStrip s '\r') with
    | none => .error .valueError
    | some v => .ok (v ≠ 0)

/-- `read_gpio`: assert `0 <= port < 10`, write `gpio read {port}\n\r`,
read 100, decode. -/
def read_gpio (b : RelayBoard) (port : Int) : Except PyError Bool × RelayBoard :=
  if ¬ (0 ≤ port ∧ port < 10) then
    (.error (.assertionError "Invalid GPIO Port"), b)
  else
    match b.device with
    | none => (.error .attributeError, b)
    | some t =>
      match t.write ("gpio read " ++ toString port ++ "\n\r") with
      | .error e => (.error e, b)
      | .ok t =>
        match t.read 100 with
        | .error e => (.error e, { b with device := some t })
        | .ok (response, t) =>
          (gpio_decode response, { b with device := some t })

/-- `set_gpio`: assert `0 <= port < 10`, write `gpio set {port} \r` when
the status is truthy, else `gpio clear {port} \r` (note the space before
the carriage return), read 50. -/
def set_gpio (b : RelayBoard) (port : Int) (status : PyVal) :
    Except PyError Unit × RelayBoard :=
  if ¬ (0 ≤ port ∧ port < 10) then
    (.error (.assertionError "Invalid GPIO Port"), b)
  else
    match b.device with
    | none => (.error .attributeError, b)
    | some t =>
      let cmd_string :=
        if pyTruthy status then "gpio set " ++ toString port ++ " \r"
        else "gpio clear " ++ toString port ++ " \r"
      match t.write cmd_string with
      | .error e => (.error e, b)
      | .ok t =>
        match t.read 50 with
        | .error e => (.error e, { b with device := some t })
        | .ok (_, t) => (.ok (), { b with device := some t })

/-- Result of `get_adc`: the raw integer, or the voltage
`(raw/1023)*3.3` (the source computes it in floating point; the model uses
exact rational arithmetic). -/
inductive AdcValue where
  | raw : Int → AdcValue
  | voltage : ℚ → AdcValue
  deriving Repr, DecidableEq

/-- Reply decoding of `get_adc`:
decode the reply, take `split` at `\r` index 1, strip `\n`, then `int(...)`.  The source
performs no range check on the parsed value. -/
def adc_decode (response : String) : Except PyError Int :=
  match (pySplit response '\r').get? 1 with
  | none => .error .indexError
  | some s =>
    match pyInt (pyStrip s '\n') with
    | none => .error .valueError
    | some v => .ok v

/-- `get_adc`: assert `0 <= port < 5`, write `adc read {port}\r`, read 50,
decode, and when `raw` is false convert with `(response/1023)*3.3`. -/
def get_adc (b : RelayBoard) (port : Int) (raw : Bool := true) :
    Except PyError AdcValue × RelayBoard :=
  if ¬ (0 ≤ port ∧ port < 5) then
    (.error (.assertionError "Invalid ADC Port"), b)
  else
    match b.device with
    | none => (.error .attributeError, b)
    | some t =>
      match t.write ("adc read " ++ toString port ++ "\r") with
      | .error e => (.error e, b)
      | .ok t =>
        match t.read 50 with
        | .error e => (.error e, { b with device := some t })
        | .ok (response, t) =>
          ((adc_decode response).map (fun v =>
            if raw then .raw v else .voltage ((v : ℚ) / 1023 * (33 / 10))),
           { b with device := some t })

/-- The bit unpacking of `get_relay`:
`[(response & (2**x)) // (2**x) for x in range(number_of_relays)]`. -/
def wireToList (response : Nat) (number_of_relays : Nat) : List Nat :=
  (List.range number_of_relays).map (fun x => (response &&& 2 ^ x) / 2 ^ x)

/-- Reply decoding of `get_relay`:
`int(response.split('\r')[1].strip('\n'), 16)` then the bit unpacking.
A negative parsed value cannot occur in a device reply (plain hex digits);
the model unpacks the absolute value. -/
def relay_decode (response : String) (number_of_relays : Nat) :
    Except PyError (List Nat) :=
  match (pySplit response '\r').get? 1 with
  | none => .error .indexError
  | some s =>
    match pyIntHex (pyStrip s '\n') with
    | none => .error .valueError
    | some v => .ok (wireToList v.natAbs number_of_relays)

/-- `get_relay`: write `relay readall\r`, read 100, decode. -/
def get_relay (b : RelayBoard) : Except PyError (List Nat) × RelayBoard :=
  match b.device with
  | none => (.error .attributeError, b)
  | some t =>
    match t.write "relay readall\r" with
    | .error e => (.error e, b)
    | .ok t =>
      match t.read 100 with
      | .error e => (.error e, { b with device := some t })
      | .ok (response, t) =>
        (relay_decode response b.number_of_relays, { b with device := some t })

/-- The wire integer built by the list branch of `set_relay`:
`for val in range(len(relay_vals)): if relay_vals[val] != 0:
temp_vals += 2**val` — the whole list contributes, whatever its length. -/
def listToWireAux : List PyVal → Nat → Nat
  | [], _ => 0
  | v :: vs, i => (if pyNeZero v then 2 ^ i else 0) + listToWireAux vs (i + 1)

def listToWire (relay_vals : List PyVal) : Nat :=
  listToWireAux relay_vals 0

/-- The hex field of the `relay writeall` command for an integer argument:
`hex(relay_vals)[2:]` then `zfill(number_of_relays // 4)`. -/
def relayHexField (relay_vals : Int) (number_of_relays : Nat) : String :=
  pyZfill (pySliceFrom (pyHex relay_vals) 2) (number_of_relays / 4)

/-- `set_relay`: reject floats and strings by assertion; an int is formatted
as `hex(...)[2:]` zero-filled to `number_of_relays // 4` digits; a list is
packed into an integer (each element contributing `2**index` when `!= 0`)
and formatted the same way; any other type returns `False` without I/O;
otherwise write `relay writeall {hex}\r` and read 100.  Python `bool` is
not `int` under the exact `type(...) == int` test, so booleans fall into
the `return False` branch. -/
def set_relay (b : RelayBoard) (relay_vals : PyVal) :
    Except PyError PyVal × RelayBoard :=
  match relay_vals with
  | .vfloat _ => (.error (.assertionError "Relay setting cant be float"), b)
  | .vstr _ => (.error (.assertionError "Relay setting cant be string"), b)
  | .vint n =>
    let field := relayHexField n b.number_of_relays
    match b.device with
    | none => (.error .attributeError, b)
    | some t =>
      match t.write ("relay writeall " ++ field ++ "\r") with
      | .error e => (.error e, b)
      | .ok t =>
        match t.read 100 with
        | .error e => (.error e, { b with device := some t })
        | .ok (_, t) => (.ok .vnone, { b with device := some t })
  | .vlist l =>
    let field := relayHexField (listToWire l : Nat) b.number_of_relays
    match b.device with
    | none => (.error .attributeError, b)
    | some t =>
      match t.write ("relay writeall " ++ field ++ "\r") with
      | .error e => (.error e, b)
      | .ok t =>
        match t.read 100 with
        | .error e => (.error e, { b with device := some t })
        | .ok (_, t) => (.ok .vnone, { b with device := some t })
  | _ => (.ok (.vbool false), b)

/-- The written-command trace of a board. -/
def boardWrites (b : RelayBoard) : List String :=
  match b.device with
  | none => []
  | some t => t.writes

/-- Number of reads a board has consumed. -/
def boardReads (b : RelayBoard) : Nat :=
  match b.device with
  | none => 0
  | some t => t.readIdx

/-- A freshly opened transport replying per `rs`. -/
def freshTransport (rs : Nat → String) : Transport :=
  { readSeq := rs, readIdx := 0, writes := [], isOpen := true }

/-- A connected board with `n` relays whose device replies per `rs`. -/
def freshBoard (n : Nat) (rs : Nat → String) : RelayBoard :=
  { number_of_relays := n, port_name := "COM6",
    device := some (freshTransport rs), connected := true }

/-- A board whose `serial.Serial` call failed: the placeholder device. -/
def failedBoard : RelayBoard :=
  { number_of_relays := 16, port_name := "COM6",
    device := none, connected := false }

/-- The sixteen numeral characters Python `hex` can emit: decimal digits
and lowercase `a`-`f` (in particular not `x`, so a string of such
characters carries no `0x` prefix). -/
def isLowerHexDigit (c : Char) : Bool :=
  (48 ≤ c.toNat ∧ c.toNat ≤ 57) ∨ (97 ≤ c.toNat ∧ c.toNat ≤ 102)

/-- Little-endian value of a boolean list (bit `i` = element `i`), the
reading of the relay bit packing in the specification; `listToWire` on the
corresponding `PyVal` list is proved to compute `2 ^ 0` times this. -/
def bitsVal : List Bool → Nat
  | [] => 0
  | b :: bs => b.toNat + 2 * bitsVal bs

/-- The two successive character filters of `set_device_name` merged into
one predicate (for comparison with `normalize_name`). -/
def normalize_name_combined (name : String) : String :=
  let name := String.mk (name.data.filter
    (fun x => x.isAlphanum ∧ 48 ≤ x.toNat ∧ x.toNat ≤ 121))
  let name := pyZfill name 8
  pyTake name 8

/-- The error an operation hits on a dead handle: `AttributeError` when the
open failed (placeholder device), the closed-port error after `close_port`.
Neither is the `NotConnected` of the specification. -/
def deadError (b : RelayBoard) : PyError :=
  match b.device with
  | none => .attributeError
  | some _ => .portNotOpen

/-! ## Theorems -/

theorem pyNeZero_vbool (b : Bool) : pyNeZero (PyVal.vbool b) = b := rfl

theorem listToWireAux_map_vbool (l : List Bool) (i : Nat) :
    listToWireAux (l.map PyVal.vbool) i = 2 ^ i * bitsVal l := by
  induction l generalizing i with
  | nil => simp [listToWireAux, bitsVal]
  | cons b bs ih =>
    simp only [List.map_cons, listToWireAux, bitsVal, ih, pyNeZero_vbool]
    cases b <;> simp [pow_succ] <;> ring

theorem listToWire_map_vbool (l : List Bool) :
    listToWire (l.map PyVal.vbool) = bitsVal l := by
  simpa using listToWireAux_map_vbool l 0

theorem testBit_bitsVal (l : List Bool) (x : Nat) (hx : x < l.length) :
    (bitsVal l).testBit x = l.getD x false := by
  induction l generalizing x with
  | nil => simp at hx
  | cons b bs ih =>
    cases x with
    | zero =>
      cases b <;> simp [bitsVal, Nat.add_mul_mod_self_left]
    | succ x =>
      rw [Nat.testBit_add_one]
      have hdiv : (bitsVal (b :: bs)) / 2 = bitsVal bs := by
        cases b <;> simp [bitsVal] <;> omega
      rw [hdiv, List.getD_cons_succ]
      exact ih x (by simpa using hx)

theorem and_two_pow_div (w x : Nat) :
    (w &&& 2 ^ x) / 2 ^ x = (w.testBit x).toNat := by
  rw [Nat.and_two_pow]
  exact Nat.mul_div_cancel _ (by positivity)

theorem wireToList_bitsVal (l : List Bool) :
    wireToList (bitsVal l) l.length = l.map (fun b => if b then 1 else 0) := by
  apply List.ext_getElem
  · simp [wireToList]
  · intro i h1 h2
    simp only [wireToList, List.getElem_map, List.getElem_range]
    have hi : i < l.length := by simpa using h2
    rw [and_two_pow_div, testBit_bitsVal l i hi, List.getD_eq_getElem l false hi]
    cases l[i] <;> rfl

/-- C1: for every `relay_count` in `{4, 8, 16, 32}` and every boolean
sequence of that length, encoding the sequence to the wire integer the way
the list branch of `set_relay` does (bit `i` set iff element `i` is
non-zero) and decoding that integer the way `get_relay` does (element `i`
is `(value >> i) & 1`) yields the sequence again (as its `0`/`1` image,
which Python equality identifies with the boolean sequence). -/
theorem relay_roundtrip (n : Nat) (seq : List Bool)
    (hn : n = 4 ∨ n = 8 ∨ n = 16 ∨ n = 32) (hlen : seq.length = n) :
    wireToList (listToWire (seq.map PyVal.vbool)) n
      = seq.map (fun b => if b then 1 else 0) := by
  subst hlen
  rw [listToWire_map_vbool]
  exact wireToList_bitsVal seq

theorem relay_roundtrip_witness :
    wireToList (listToWire
        ([true, false, false, true, false, false, false, true].map PyVal.vbool)) 8
      = [true, false, false, true, false, false, false, true].map
          (fun b => if b then 1 else 0) :=
  relay_roundtrip 8 [true, false, false, true, false, false, false, true]
    (Or.inr (Or.inl rfl)) rfl

/-- C2: the claim (and the own docstring of the function) says `set_relay`
truncates caller bits / list entries at index `relay_count` and above and
writes a hex field of exactly `relay_count/4` digits.  The code does
neither: with 8 relays, the integer `0x100` (only bit 8 set) is written as
the three-digit field `100`, and a 9-element list with a `1` at index 8
produces the same — the excess reaches the device and the field is longer
than `8/4 = 2` digits. -/
theorem set_relay_high_bits_eval :
    boardWrites (set_relay (freshBoard 8 (fun _ => "")) (.vint 256)).2
      = ["relay writeall 100\r"] ∧
    boardWrites (set_relay (freshBoard 8 (fun _ => ""))
        (.vlist [.vint 0, .vint 0, .vint 0, .vint 0, .vint 0, .vint 0, .vint 0,
          .vint 0, .vint 1])).2
      = ["relay writeall 100\r"] :=
  ⟨rfl, rfl⟩

/-- C9: normalising the concrete name `ab!c#1` drops the non-alphanumeric
characters and left-zero-pads to 8, giving exactly `0000abc1`, and
`set_device_name` writes exactly `id set 0000abc1\r`. -/
theorem set_device_name_concrete :
    normalize_name "ab!c#1" = "0000abc1" ∧
    boardWrites (set_device_name (freshBoard 16 (fun _ => "")) "ab!c#1").2
      = ["id set 0000abc1\r"] :=
  ⟨rfl, rfl⟩

/-- C10: an argument whose Python type is neither `int` nor `list` (nor
`float` or `str`, which the assertions reject earlier) — in particular the
booleans `True` and `False`, since `type(True) == int` is false — makes
`set_relay` return `False` with no transport write or read: the requested
state is silently never sent. -/
theorem set_relay_other_type (b : RelayBoard) (v : PyVal)
    (hint : ∀ n : Int, v ≠ .vint n) (hlist : ∀ l : List PyVal, v ≠ .vlist l)
    (hfloat : ∀ q : ℚ, v ≠ .vfloat q) (hstr : ∀ s : String, v ≠ .vstr s) :
    set_relay b v = (.ok (.vbool false), b) := by
  cases v with
  | vint n => exact absurd rfl (hint n)
  | vlist l => exact absurd rfl (hlist l)
  | vfloat q => exact absurd rfl (hfloat q)
  | vstr s => exact absurd rfl (hstr s)
  | vbool b2 => rfl
  | vnone => rfl

theorem set_relay_other_type_witness :
    set_relay (freshBoard 16 (fun _ => "")) (.vbool true)
      = (.ok (.vbool false), freshBoard 16 (fun _ => "")) :=
  set_relay_other_type (freshBoard 16 (fun _ => "")) (.vbool true)
    (fun n h => PyVal.noConfusion h) (fun l h => PyVal.noConfusion h)
    (fun q h => PyVal.noConfusion h) (fun s h => PyVal.noConfusion h)

/-- C5 (amended): the two successive filters of `set_device_name` are
equivalent to the single filter keeping alphanumeric characters whose code
point lies in `[48, 121]` — not to the alphanumeric filter alone, which the
counterexample `"z"` (code point 122) separates. -/
theorem normalize_name_eq_combined (name : String) :
    normalize_name name = normalize_name_combined name := by
  simp only [normalize_name, normalize_name_combined, List.filter_filter]
  congr 3
  apply List.filter_congr
  intro a _
  by_cases h1 : a.isAlphanum <;> simp [h1, and_assoc]

/-- C5 counterexample: on input `"z"` the two-filter normalisation of the
code and the alphanumeric-only normalisation of the claim disagree —
`'z'` is alphanumeric but its code point 122 falls outside `[48, 121]`,
so omitting the range filter changes the name written to the device. -/
theorem normalize_name_range_filter_matters :
    normalize_name "z" = "00000000" ∧ normalize_name_spec "z" = "0000000z" ∧
    normalize_name "z" ≠ normalize_name_spec "z" :=
  ⟨rfl, rfl, by decide⟩

/-- C7 (amended): `get_adc` parses the payload token as a base-10 integer;
a non-numeric token fails with `ValueError`, and every parsed integer —
with no `[0, 1023]` range check — is returned raw or converted to the
voltage `(v/1023)*3.3`. -/
theorem get_adc_parse (n : Nat) (response s : String)
    (hs : (pySplit response '\r').get? 1 = some s) :
    (pyInt (pyStrip s '\n') = none →
      (get_adc (freshBoard n (fun _ => response)) 0 true).1 = .error .valueError) ∧
    (∀ v : Int, pyInt (pyStrip s '\n') = some v →
      (get_adc (freshBoard n (fun _ => response)) 0 true).1 = .ok (.raw v) ∧
      (get_adc (freshBoard n (fun _ => response)) 0 false).1
        = .ok (.voltage ((v : ℚ) / 1023 * (33 / 10)))) := by
  refine ⟨fun hp => ?_, fun v hp => ⟨?_, ?_⟩⟩ <;>
    simp_all [get_adc, adc_decode, Except.map, Transport.write, Transport.read,
      freshBoard, freshTransport]

theorem get_adc_parse_witness :
    (get_adc (freshBoard 16 (fun _ => "adc read 0\r\n70000\n\r>")) 0 true).1
      = .ok (.raw 70000) :=
  ((get_adc_parse 16 "adc read 0\r\n70000\n\r>" "\n70000\n" rfl).2 70000 rfl).1

/-- C7 counterexample: the device token `5000` lies outside `[0, 1023]`,
yet `get_adc` returns it as a success instead of failing — the code has no
range check. -/
theorem get_adc_out_of_range :
    (get_adc (freshBoard 16 (fun _ => "adc read 0\r\n5000\n\r>")) 0 true).1
      = .ok (.raw 5000) ∧ ¬ ((5000 : Int) ≤ 1023) :=
  ⟨rfl, by norm_num⟩

/-- C8 (amended): `read_gpio` parses the payload token with `int(...)` —
failing with `ValueError` on a non-numeric token — and then applies
`bool(...)`: `0` maps to `False` and every non-zero integer (not just `1`)
maps to `True`. -/
theorem read_gpio_parse (n : Nat) (response s : String)
    (hs : (pySplit response '\n').get? 2 = some s) :
    (pyInt (pyStrip s '\r') = none →
      (read_gpio (freshBoard n (fun _ => response)) 0).1 = .error .valueError) ∧
    (∀ v : Int, pyInt (pyStrip s '\r') = some v →
      (read_gpio (freshBoard n (fun _ => response)) 0).1 = .ok (decide (v ≠ 0))) := by
  refine ⟨fun hp => ?_, fun v hp => ?_⟩ <;>
    simp_all [read_gpio, gpio_decode, Transport.write, Transport.read, freshBoard,
      freshTransport]

theorem read_gpio_parse_witness :
    (read_gpio (freshBoard 16 (fun _ => "gpio read 0\n\r\n0\r\n>")) 0).1
      = .ok (decide ((0:Int) ≠ 0)) :=
  (read_gpio_parse 16 "gpio read 0\n\r\n0\r\n>" "0\r" rfl).2 0 rfl

/-- C8 counterexample: the token `5` is an integer other than `0` and `1`,
yet `read_gpio` succeeds and returns `True` instead of failing. -/
theorem read_gpio_nonbinary_token :
    (read_gpio (freshBoard 16 (fun _ => "gpio read 0\n\r\n5\r\n>")) 0).1 = .ok true ∧
    (5 : Int) ≠ 0 ∧ (5 : Int) ≠ 1 :=
  ⟨rfl, by norm_num, by norm_num⟩

/-- C3 (amended): every operation other than open/close on a handle whose
open failed, or on a handle whose port was closed, fails — with
`AttributeError` (placeholder device) respectively the closed-port error,
never the `NotConnected` of the specification, which no code path produces —
and performs no transport write or read (the board state, including the
write trace and read counter, is returned unchanged). -/
theorem ops_on_dead_handle (b : RelayBoard)
    (h : b.device = none ∨ ∃ t, b.device = some t ∧ t.isOpen = false) :
    deadError b ≠ .notConnected ∧
    get_device_name b = (.error (deadError b), b) ∧
    set_device_name b "name" = (.error (deadError b), b) ∧
    clear_buffer b 10 = (.error (deadError b), b) ∧
    read_gpio b 0 = (.error (deadError b), b) ∧
    set_gpio b 0 (.vbool true) = (.error (deadError b), b) ∧
    get_adc b 0 true = (.error (deadError b), b) ∧
    get_relay b = (.error (deadError b), b) ∧
    set_relay b (.vint 0) = (.error (deadError b), b) := by
  rcases h with h | ⟨t, h, hopen⟩
  · refine ⟨by simp [deadError, h], ?_, ?_, ?_, ?_, ?_, ?_, ?_, ?_⟩ <;>
      simp [deadError, h, get_device_name, set_device_name, clear_buffer,
        read_gpio, set_gpio, get_adc, get_relay, set_relay]
  · refine ⟨by simp [deadError, h], ?_, ?_, ?_, ?_, ?_, ?_, ?_, ?_⟩ <;>
      simp [deadError, h, hopen, get_device_name, set_device_name, clear_buffer,
        clearBufferGo, read_gpio, set_gpio, get_adc, get_relay, set_relay,
        Transport.write, Transport.read]

theorem ops_on_dead_handle_witness :
    deadError failedBoard ≠ .notConnected ∧
    get_device_name failedBoard = (.error (deadError failedBoard), failedBoard) ∧
    set_device_name failedBoard "name" = (.error (deadError failedBoard), failedBoard) ∧
    clear_buffer failedBoard 10 = (.error (deadError failedBoard), failedBoard) ∧
    read_gpio failedBoard 0 = (.error (deadError failedBoard), failedBoard) ∧
    set_gpio failedBoard 0 (.vbool true) = (.error (deadError failedBoard), failedBoard) ∧
    get_adc failedBoard 0 true = (.error (deadError failedBoard), failedBoard) ∧
    get_relay failedBoard = (.error (deadError failedBoard), failedBoard) ∧
    set_relay failedBoard (.vint 0) = (.error (deadError failedBoard), failedBoard) :=
  ops_on_dead_handle failedBoard (Or.inl rfl)

/-- C3 counterexample: on a handle whose open failed, `get_device_name`
raises `AttributeError` (the placeholder device is a string), not the
`NotConnected` error the claim promises. -/
theorem get_device_name_not_notConnected :
    (get_device_name failedBoard).1 = .error .attributeError ∧
    PyError.attributeError ≠ PyError.notConnected :=
  ⟨rfl, by decide⟩

theorem string_length_zero_iff (s : String) : s.length = 0 ↔ s = "" := by
  cases s with
  | mk data => cases data <;> simp [String.length, String.ext_iff]

theorem clearBufferGo_success (k : Nat) : ∀ (fuel : Nat) (t : Transport),
    t.isOpen = true → k ≤ fuel →
    (∀ j, j < k → t.readSeq (t.readIdx + j) ≠ "") →
    t.readSeq (t.readIdx + k) = "" →
    clearBufferGo fuel t = .ok (true, { t with readIdx := t.readIdx + k + 1 }) := by
  induction k with
  | zero =>
    intro fuel t hopen _ _ hemp
    rw [Nat.add_zero] at hemp
    rw [clearBufferGo]
    simp [Transport.read, hopen, hemp]
  | succ k ih =>
    intro fuel t hopen hk hne hemp
    match fuel with
    | 0 => omega
    | fuel + 1 =>
      have h0 : t.readSeq t.readIdx ≠ "" := by
        have := hne 0 (by omega)
        rwa [Nat.add_zero] at this
      rw [clearBufferGo]
      simp only [Transport.read, hopen, if_true]
      rw [if_neg (by simpa [string_length_zero_iff] using h0)]
      have hrec := ih fuel { t with readIdx := t.readIdx + 1 } hopen (by omega)
        (fun j hj => by
          have h := hne (j + 1) (by omega)
          rwa [show t.readIdx + (j + 1) = t.readIdx + 1 + j by omega] at h)
        (by
          have h := hemp
          rwa [show t.readIdx + (k + 1) = t.readIdx + 1 + k by omega] at h)
      simp only [hopen] at hrec
      rw [hrec]
      simp [Transport.mk.injEq]
      omega

theorem clearBufferGo_fail : ∀ (fuel : Nat) (t : Transport),
    t.isOpen = true →
    (∀ j, j ≤ fuel → t.readSeq (t.readIdx + j) ≠ "") →
    clearBufferGo fuel t = .ok (false, { t with readIdx := t.readIdx + fuel + 1 }) := by
  intro fuel
  induction fuel with
  | zero =>
    intro t hopen hne
    have h0 : t.readSeq t.readIdx ≠ "" := by
      have := hne 0 (by omega)
      rwa [Nat.add_zero] at this
    rw [clearBufferGo]
    simp only [Transport.read, hopen, if_true]
    rw [if_neg (by simpa [string_length_zero_iff] using h0)]
  | succ fuel ih =>
    intro t hopen hne
    have h0 : t.readSeq t.readIdx ≠ "" := by
      have := hne 0 (by omega)
      rwa [Nat.add_zero] at this
    rw [clearBufferGo]
    simp only [Transport.read, hopen, if_true]
    rw [if_neg (by simpa [string_length_zero_iff] using h0)]
    have hrec := ih { t with readIdx := t.readIdx + 1 } hopen
      (fun j hj => by
        have h := hne (j + 1) (by omega)
        rwa [show t.readIdx + (j + 1) = t.readIdx + 1 + j by omega] at h)
    simp only [hopen] at hrec
    rw [hrec]
    simp [Transport.mk.injEq]
    omega

/-- C6: `clear_buffer(retry_limit)` succeeds as soon as some read within
the first `retry_limit + 1` reads returns zero bytes (in particular when
the very first does, with exactly `k + 1` reads consumed when read `k`,
0-based, is the first empty one), and fails after exactly
`retry_limit + 1` consecutive non-empty reads, performing no further
reads. -/
theorem clear_buffer_spec (n retry_limit : Nat) (rs : Nat → String) :
    (∀ k, k ≤ retry_limit → (∀ j, j < k → rs j ≠ "") → rs k = "" →
      (clear_buffer (freshBoard n rs) retry_limit).1 = .ok true ∧
      boardReads (clear_buffer (freshBoard n rs) retry_limit).2 = k + 1) ∧
    ((∀ j, j ≤ retry_limit → rs j ≠ "") →
      (clear_buffer (freshBoard n rs) retry_limit).1 = .ok false ∧
      boardReads (clear_buffer (freshBoard n rs) retry_limit).2 = retry_limit + 1) := by
  constructor
  · intro k hk hne hemp
    have h := clearBufferGo_success k retry_limit (freshTransport rs) rfl hk
      (fun j hj => by simpa [freshTransport] using hne j hj)
      (by simpa [freshTransport] using hemp)
    simp only [freshTransport] at h
    simp [clear_buffer, freshBoard, freshTransport, h, boardReads]
  · intro hne
    have h := clearBufferGo_fail retry_limit (freshTransport rs) rfl
      (fun j hj => by simpa [freshTransport] using hne j hj)
    simp only [freshTransport] at h
    simp [clear_buffer, freshBoard, freshTransport, h, boardReads]

theorem clear_buffer_spec_witness :
    ((clear_buffer (freshBoard 16 (fun j => if j = 1 then "" else "x")) 2).1 = .ok true ∧
     boardReads (clear_buffer (freshBoard 16 (fun j => if j = 1 then "" else "x")) 2).2 = 2) ∧
    ((clear_buffer (freshBoard 16 (fun _ => "x")) 2).1 = .ok false ∧
     boardReads (clear_buffer (freshBoard 16 (fun _ => "x")) 2).2 = 3) :=
  ⟨(clear_buffer_spec 16 2 (fun j => if j = 1 then "" else "x")).1 1 (by omega)
      (fun j hj => by
        have hj0 : j = 0 := by omega
        subst hj0
        decide)
      (by decide),
   (clear_buffer_spec 16 2 (fun _ => "x")).2 (fun j hj => by decide)⟩

theorem isLowerHexDigit_hexDigitChar (d : Nat) (hd : d < 16) :
    isLowerHexDigit (hexDigitChar d) = true := by
  interval_cases d <;> decide

theorem natToHexAux_mem (fuel : Nat) : ∀ (n : Nat), n < fuel →
    ∀ c ∈ natToHexAux fuel n, isLowerHexDigit c = true := by
  induction fuel with
  | zero => omega
  | succ fuel ih =>
    intro n hn c hc
    rw [natToHexAux] at hc
    by_cases h16 : n < 16
    · simp [h16] at hc
      subst hc
      exact isLowerHexDigit_hexDigitChar n h16
    · simp [h16] at hc
      rcases hc with hc | hc
      · have hdiv : n / 16 < fuel := by
          have := Nat.div_lt_self (show 0 < n by omega) (show 1 < 16 by omega)
          omega
        exact ih (n / 16) hdiv c hc
      · subst hc
        exact isLowerHexDigit_hexDigitChar (n % 16) (Nat.mod_lt _ (by omega))

theorem natToHexAux_length (fuel : Nat) : ∀ (n k : Nat), n < fuel → 1 ≤ k →
    n < 16 ^ k → (natToHexAux fuel n).length ≤ k := by
  induction fuel with
  | zero => omega
  | succ fuel ih =>
    intro n k hfuel hk hn
    rw [natToHexAux]
    by_cases h16 : n < 16
    · simpa [h16] using hk
    · rw [if_neg h16]
      have hk2 : 2 ≤ k := by
        rcases Nat.lt_or_ge k 2 with hlt | hge
        · exfalso
          have hk1 : k = 1 := by omega
          rw [hk1, pow_one] at hn
          omega
        · exact hge
      have hdivfuel : n / 16 < fuel := by
        have := Nat.div_lt_self (show 0 < n by omega) (show 1 < 16 by omega)
        omega
      have hdiv : n / 16 < 16 ^ (k - 1) := by
        rw [Nat.div_lt_iff_lt_mul (show 0 < 16 by omega)]
        calc n < 16 ^ k := hn
        _ = 16 ^ (k - 1) * 16 := by
          rw [← pow_succ]
          congr 1
          omega
      have := ih (n / 16) (k - 1) hdivfuel (by omega) hdiv
      simp only [List.length_append, List.length_cons, List.length_nil]
      omega

theorem natToHex_length (n k : Nat) (hk : 1 ≤ k) (hn : n < 16 ^ k) :
    (natToHex n).length ≤ k :=
  natToHexAux_length (n + 1) n k (by omega) hk hn

theorem natToHex_mem (n : Nat) (c : Char) (hc : c ∈ natToHex n) :
    isLowerHexDigit c = true :=
  natToHexAux_mem (n + 1) n (by omega) c hc

theorem pyHex_slice (w : Nat) :
    pySliceFrom (pyHex (w : Int)) 2 = String.mk (natToHex w) := by
  rw [pyHex, if_neg (by omega)]
  simp [pySliceFrom]

theorem pyZfill_length (s : String) (w : Nat) :
    (pyZfill s w).length = max w s.length := by
  rw [pyZfill]
  split <;> simp <;> omega

theorem pyZfill_mem (s : String) (w : Nat) (c : Char)
    (hc : c ∈ (pyZfill s w).data) : c = '0' ∨ c ∈ s.data := by
  rw [pyZfill] at hc
  split at hc
  · simp only [String.data_append, List.mem_append] at hc
    rcases hc with hc | hc
    · exact Or.inl (List.eq_of_mem_replicate hc)
    · exact Or.inr hc
  · exact Or.inr hc

theorem relayHexField_spec (w nr : Nat) (h4 : 4 ≤ nr) (hw : w < 16 ^ (nr / 4)) :
    (relayHexField (w : Int) nr).length = nr / 4 ∧
    ∀ c ∈ (relayHexField (w : Int) nr).data, isLowerHexDigit c = true := by
  constructor
  · rw [relayHexField, pyHex_slice, pyZfill_length]
    have := natToHex_length w (nr / 4) (by omega) hw
    simp only [String.length_mk]
    omega
  · intro c hc
    rw [relayHexField, pyHex_slice] at hc
    rcases pyZfill_mem _ _ _ hc with hc | hc
    · subst hc
      decide
    · exact natToHex_mem w c hc

/-- C4: for every valid argument each operation writes to the transport
exactly the tabulated ASCII command: `id get\r`, `id set {name}\r`,
`gpio read {n}\n\r`, `gpio set {n} \r` / `gpio clear {n} \r` (trailing
space before the CR), `adc read {n}\r`, `relay readall\r`, and
`relay writeall {hex}\r`, where for an in-range wire value the hex field
has exactly `relay_count/4` (integer division) characters, all of them
lowercase hex digits — hence no `0x` prefix. -/
theorem wire_commands (nr : Nat) (rs : Nat → String) (name : String)
    (pg pa : Int) (status : PyVal) (w : Nat)
    (hg : 0 ≤ pg ∧ pg < 10) (ha : 0 ≤ pa ∧ pa < 5)
    (h4 : 4 ≤ nr) (hw : w < 16 ^ (nr / 4)) :
    boardWrites (get_device_name (freshBoard nr rs)).2 = ["id get\r"] ∧
    boardWrites (set_device_name (freshBoard nr rs) name).2
      = ["id set " ++ normalize_name name ++ "\r"] ∧
    boardWrites (read_gpio (freshBoard nr rs) pg).2
      = ["gpio read " ++ toString pg ++ "\n\r"] ∧
    boardWrites (set_gpio (freshBoard nr rs) pg status).2
      = [if pyTruthy status then "gpio set " ++ toString pg ++ " \r"
         else "gpio clear " ++ toString pg ++ " \r"] ∧
    boardWrites (get_adc (freshBoard nr rs) pa).2
      = ["adc read " ++ toString pa ++ "\r"] ∧
    boardWrites (get_relay (freshBoard nr rs)).2 = ["relay readall\r"] ∧
    boardWrites (set_relay (freshBoard nr rs) (.vint (w : Int))).2
      = ["relay writeall " ++ relayHexField (w : Int) nr ++ "\r"] ∧
    (relayHexField (w : Int) nr).length = nr / 4 ∧
    (∀ c ∈ (relayHexField (w : Int) nr).data, isLowerHexDigit c = true) := by
  refine ⟨rfl, rfl, ?_, ?_, ?_, rfl, rfl, (relayHexField_spec w nr h4 hw).1,
    (relayHexField_spec w nr h4 hw).2⟩
  · rw [read_gpio, if_neg (not_not_intro hg)]
    rfl
  · rw [set_gpio, if_neg (not_not_intro hg)]
    rfl
  · rw [get_adc, if_neg (not_not_intro ha)]
    rfl

theorem wire_commands_witness :
    boardWrites (get_device_name (freshBoard 8 (fun _ => ""))).2 = ["id get\r"] ∧
    boardWrites (set_device_name (freshBoard 8 (fun _ => "")) "RELAY").2
      = ["id set " ++ normalize_name "RELAY" ++ "\r"] ∧
    boardWrites (read_gpio (freshBoard 8 (fun _ => "")) 3).2
      = ["gpio read " ++ toString (3 : Int) ++ "\n\r"] ∧
    boardWrites (set_gpio (freshBoard 8 (fun _ => "")) 3 (.vbool true)).2
      = [if pyTruthy (.vbool true) then "gpio set " ++ toString (3 : Int) ++ " \r"
         else "gpio clear " ++ toString (3 : Int) ++ " \r"] ∧
    boardWrites (get_adc (freshBoard 8 (fun _ => "")) 2).2
      = ["adc read " ++ toString (2 : Int) ++ "\r"] ∧
    boardWrites (get_relay (freshBoard 8 (fun _ => ""))).2 = ["relay readall\r"] ∧
    boardWrites (set_relay (freshBoard 8 (fun _ => "")) (.vint ((137 : Nat) : Int))).2
      = ["relay writeall " ++ relayHexField ((137 : Nat) : Int) 8 ++ "\r"] ∧
    (relayHexField ((137 : Nat) : Int) 8).length = 8 / 4 ∧
    (∀ c ∈ (relayHexField ((137 : Nat) : Int) 8).data, isLowerHexDigit c = true) :=
  wire_commands 8 (fun _ => "") "RELAY" 3 2 (.vbool true) 137
    (by norm_num) (by norm_num) (by norm_num) (by norm_num)
